import Mathlib

/-!
Shallow embedding of the ingestion-pipeline core of
`pixeltable-takeout-ingestor` (src/takeout_ingestor/ingestors/base.py and
src/takeout_ingestor/ingestors/claude_conversations.py), together with
theorems settling the frozen claims about it.

Conventions of the embedding:
* Python exceptions are modelled with `Except String`; the carried string is
  the exception message (`str(e)`).
* External effects (the pixeltable backend, the file system, `json.loads`,
  wall-clock timestamps) are parameters of the embedded functions: they are
  collaborators outside this repository.
* Machine floats of the progress percentages are modelled over `ℚ`.
* `datetime.now()` timestamps and the free-form `metadata` mapping of
  `IngestorProgress` are elided: no claim mentions them, and they are
  wall-clock I/O respectively unconstrained data.
-/

/-- Ingestion status states (enum IngestorStatus, base.py lines 18-24). -/
inductive IngestorStatus where
  | pending
  | running
  | completed
  | failed
  | paused
deriving DecidableEq, Repr

/-- Track ingestion progress (class IngestorProgress, base.py lines 27-80).
The `start_time`, `last_update` timestamps and the free-form `metadata`
dictionary are elided (wall-clock I/O, unconstrained by any claim). -/
structure IngestorProgress where
  total_items : Nat := 0
  processed_items : Nat := 0
  failed_items : Nat := 0
  status : IngestorStatus := .pending
  errors : List String := []
deriving DecidableEq, Repr

namespace IngestorProgress

/-- Embeds IngestorProgress.completion_percentage (base.py lines 40-45):
0 when total_items is 0, otherwise processed/total × 100, over ℚ. -/
def completion_percentage (p : IngestorProgress) : ℚ :=
  if p.total_items = 0 then 0
  else ((p.processed_items : ℚ) / (p.total_items : ℚ)) * 100

/-- Embeds IngestorProgress.success_rate (base.py lines 47-52):
0 when processed_items is 0, otherwise (processed − failed)/processed × 100.
The subtraction is carried out in ℚ, as Python computes it over ints. -/
def success_rate (p : IngestorProgress) : ℚ :=
  if p.processed_items = 0 then 0
  else (((p.processed_items : ℚ) - (p.failed_items : ℚ)) / (p.processed_items : ℚ)) * 100

/-- Embeds IngestorProgress.update (base.py lines 54-60): increments the two
counters.  The `last_update` timestamp and `metadata` merge are elided. -/
def update (p : IngestorProgress) (processed : Nat) (failed : Nat) : IngestorProgress :=
  { p with
    processed_items := p.processed_items + processed
    failed_items := p.failed_items + failed }

/-- Embeds IngestorProgress.add_error (base.py lines 62-64): appends the
message to the error log.  The `datetime.now().isoformat()` prefix of the
stored string is elided (wall-clock I/O). -/
def add_error (p : IngestorProgress) (e : String) : IngestorProgress :=
  { p with errors := p.errors ++ [e] }

end IngestorProgress

/-- Embeds BaseIngestor.pause (base.py lines 332-336): unconditionally sets
the status to PAUSED (the code only guards on progress tracking being
enabled, which the model assumes). -/
def pause (p : IngestorProgress) : IngestorProgress :=
  { p with status := .paused }

/-- Embeds BaseIngestor.resume (base.py lines 338-342): unconditionally sets
the status to RUNNING. -/
def resume (p : IngestorProgress) : IngestorProgress :=
  { p with status := .running }

/-- Python formatting of the optional validation error message: an f-string
renders None as "None" (base.py line 224). -/
def pyFormatOpt : Option String → String
  | some s => s
  | none => "None"

/-- Batch slicing of the ingest loop (base.py lines 246-247): the slices
records[i:i+batch_size] for i = 0, batch_size, 2·batch_size, ….  The 0 case
is unreachable in the source (range with step 0 raises); it is kept total
here. -/
def chunksOf : Nat → List α → List (List α)
  | _, [] => []
  | 0, x :: xs => [x :: xs]
  | n+1, x :: xs => (x :: xs).take (n+1) :: chunksOf (n+1) (xs.drop n)
termination_by _ xs => xs.length
decreasing_by simp [List.length_drop]; omega

/-- Success-rate formula of the final summary (base.py line 277):
(processed − failed)/processed × 100 when processed_count > 0, else 0. -/
def rateOf (processed_count failed_count : Nat) : ℚ :=
  if 0 < processed_count then
    ((processed_count : ℚ) - (failed_count : ℚ)) / (processed_count : ℚ) * 100
  else 0

/-- Final summary dictionary returned by ingest (base.py lines 273-280).
The "progress" entry (a snapshot of the progress dict) is not a separate
field here: the embedded ingest returns the final IngestorProgress
alongside its result. -/
structure IngestSummary where
  total_records : Nat
  processed_records : Nat
  failed_records : Nat
  success_rate : ℚ
  table_name : String
deriving DecidableEq, Repr

/-- Return value of ingest: either the validate_only early report
(base.py lines 235-240) or the final summary (base.py lines 273-283). -/
inductive IngestResult (Rec : Type) where
  | report (record_count : Nat) (sample_record : Option Rec)
  | summary (s : IngestSummary)
deriving DecidableEq, Repr

/-- Batch loop of ingest (base.py lines 242-267), with the 1-based batch
number threaded for the error message "Batch {n}: {e}".  A successful
_process_batch call adds its counts to the running totals and to the
progress counters via update; a raising call adds the full batch length to
failed_count only, records the error, and continues with the next batch.
The process_batch argument returns the (possibly raising) call result
together with the progress state after the call, mirroring Python mutation
that persists even when the call raises. -/
def ingestBatches
    (process_batch : List Rec → IngestorProgress →
      Except String (Nat × Nat) × IngestorProgress) :
    List (List Rec) → Nat → Nat × Nat × IngestorProgress →
    Nat × Nat × IngestorProgress
  | [], _, acc => acc
  | batch :: rest, batch_num, (processed_count, failed_count, p) =>
    match process_batch batch p with
    | (.ok counts, p1) =>
        ingestBatches process_batch rest (batch_num + 1)
          (processed_count + counts.1, failed_count + counts.2, p1.update counts.1 counts.2)
    | (.error e, p1) =>
        ingestBatches process_batch rest (batch_num + 1)
          (processed_count, failed_count + batch.length,
            p1.add_error ("Batch " ++ toString batch_num ++ ": " ++ e))

/-- Body of the try block of BaseIngestor.ingest (base.py lines 215-283).
An error value carries the progress state at the raise point, consumed by
the outer except clause in ingest below.  The abstract methods
(initialize_backend, validate_source, parse_source) and the overridable
_process_batch are parameters, as in the source they are resolved by
dynamic dispatch on the concrete ingestor. -/
def ingestBody
    (initialize_backend : Except String Unit)
    (validate_source : String → Bool × Option String)
    (parse_source : String → Except String (List Rec))
    (process_batch : List Rec → IngestorProgress →
      Except String (Nat × Nat) × IngestorProgress)
    (table_name : String) (batch_size : Nat)
    (source_path : String) (validate_only : Bool)
    (p : IngestorProgress) :
    Except (String × IngestorProgress) (IngestResult Rec × IngestorProgress) :=
  match initialize_backend with
  | .error e => .error (e, p)
  | .ok _ =>
    match validate_source source_path with
    | (false, error_msg) =>
        .error ("Source validation failed: " ++ pyFormatOpt error_msg, p)
    | (true, _) =>
      match parse_source source_path with
      | .error e => .error (e, p)
      | .ok records =>
        let p1 : IngestorProgress :=
          { p with total_items := records.length, status := .running }
        if validate_only then
          .ok (.report records.length records.head?, p1)
        else
          match ingestBatches process_batch (chunksOf batch_size records) 1 (0, 0, p1) with
          | (processed_count, failed_count, p2) =>
            let p3 : IngestorProgress :=
              { p2 with status := if failed_count = 0 then .completed else .failed }
            .ok (.summary
              { total_records := records.length
                processed_records := processed_count
                failed_records := failed_count
                success_rate := rateOf processed_count failed_count
                table_name := table_name }, p3)

/-- Embeds BaseIngestor.ingest (base.py lines 198-290): the try body above
wrapped in the except clause of lines 285-290, which marks the progress
Failed, records the exception message, and re-raises. -/
def ingest
    (initialize_backend : Except String Unit)
    (validate_source : String → Bool × Option String)
    (parse_source : String → Except String (List Rec))
    (process_batch : List Rec → IngestorProgress →
      Except String (Nat × Nat) × IngestorProgress)
    (table_name : String) (batch_size : Nat)
    (source_path : String) (validate_only : Bool)
    (p : IngestorProgress) :
    Except String (IngestResult Rec) × IngestorProgress :=
  match ingestBody initialize_backend validate_source parse_source process_batch
      table_name batch_size source_path validate_only p with
  | .ok (r, p1) => (.ok r, p1)
  | .error (e, p1) => (.error e, { p1.add_error e with status := .failed })

/-- Record loop of BaseIngestor._process_batch (base.py lines 305-319):
transform then store each record; any exception from either step counts the
record as failed and appends "Record processing: {e}" to the error log. -/
def processBatchLoop
    (transform_record : Rec → Except String TRec)
    (store_pixeltable : TRec → Except String Unit) :
    List Rec → Nat × Nat × IngestorProgress → Nat × Nat × IngestorProgress
  | [], acc => acc
  | r :: rest, (processed, failed, p) =>
    match transform_record r with
    | .ok t =>
      match store_pixeltable t with
      | .ok _ =>
          processBatchLoop transform_record store_pixeltable rest (processed + 1, failed, p)
      | .error e =>
          processBatchLoop transform_record store_pixeltable rest
            (processed, failed + 1, p.add_error ("Record processing: " ++ e))
    | .error e =>
        processBatchLoop transform_record store_pixeltable rest
          (processed, failed + 1, p.add_error ("Record processing: " ++ e))

/-- Embeds BaseIngestor._process_batch (base.py lines 292-321): processes
every record of the batch, returning the dictionary
of processed and failed counts.  It catches every per-record
exception, so the call itself never raises. -/
def default_process_batch
    (transform_record : Rec → Except String TRec)
    (store_pixeltable : TRec → Except String Unit)
    (batch : List Rec) (p : IngestorProgress) :
    Except String (Nat × Nat) × IngestorProgress :=
  match processBatchLoop transform_record store_pixeltable batch (0, 0, p) with
  | (processed, failed, p1) => (.ok (processed, failed), p1)

/-- Success of the transform-then-store step for one record, as decided by
the two hooks. -/
def recordOk (transform_record : Rec → Except String TRec)
    (store_pixeltable : TRec → Except String Unit) (r : Rec) : Bool :=
  match transform_record r with
  | .error _ => false
  | .ok t =>
    match store_pixeltable t with
    | .error _ => false
    | .ok _ => true

/-!
Embedding of ClaudeConversationIngestor
(src/takeout_ingestor/ingestors/claude_conversations.py).  Python strings
are modelled as Lean String with ASCII case semantics (Char.toLower and
Char.toUpper act on A-Z/a-z, mirroring CPython behaviour on the ASCII
range).  The file system is a map from path to optional content,
json.loads and json.dumps are external hooks, and datetime timestamps are
string parameters.
-/

/-- Python str.lower(): lowercase every character (ASCII model). -/
def pyLower (s : String) : String :=
  ⟨s.data.map Char.toLower⟩

/-- Python str.title() (ASCII model): a cased character following a
non-cased character is uppercased, a cased character following a cased
character is lowercased, non-cased characters pass through.  The Bool flag
is CPython's previous_is_cased. -/
def pyTitleChars : Bool → List Char → List Char
  | _, [] => []
  | prevCased, c :: cs =>
    (if c.isAlpha then (if prevCased then c.toLower else c.toUpper) else c) ::
      pyTitleChars c.isAlpha cs

def pyTitle (s : String) : String :=
  ⟨pyTitleChars false s.data⟩

/-- Python str.strip(): drop whitespace from both ends. -/
def pyStrip (s : String) : String :=
  ⟨((s.data.dropWhile Char.isWhitespace).reverse.dropWhile Char.isWhitespace).reverse⟩

/-- Python "needle in haystack" on strings: substring containment. -/
def strContains (haystack needle : String) : Bool :=
  decide (needle.data <:+: haystack.data)

/-- Last component of a path after the final slash
(pathlib.PurePath.name, POSIX separators). -/
def pathName (p : String) : String :=
  ⟨(p.data.reverse.takeWhile (fun c => c ≠ '/')).reverse⟩

/-- Embeds pathlib.PurePath.suffix: the extension of the final component
from its last dot, empty when the dot is absent, leading, or trailing. -/
def pathSuffix (p : String) : String :=
  let name := (pathName p).data
  match name.reverse.findIdx? (fun c => c = '.') with
  | none => ""
  | some r =>
    let i := name.length - 1 - r
    if 0 < i ∧ i < name.length - 1 then ⟨name.drop i⟩ else ""

/-- Minimal model of Python JSON values as produced by json.loads. -/
inductive Json where
  | null
  | bool (b : Bool)
  | num (n : Int)
  | str (s : String)
  | arr (elems : List Json)
  | obj (fields : List (String × Json))

/-- Python dict .get on a JSON object: none on missing keys and on
non-dict values. -/
def jsonGet : Json → String → Option Json
  | .obj fields, key => fields.lookup key
  | _, _ => none

def jsonAsStr : Json → Option String
  | .str s => some s
  | _ => none

mutual

/-- Simplified Python str() rendering of a JSON value: only reached for
conversation objects without a messages and without a raw_content field,
which no claim exercises; string quoting of Python repr is elided. -/
def jsonToStr : Json → String
  | .null => "None"
  | .bool b => if b then "True" else "False"
  | .num n => toString n
  | .str s => s
  | .arr elems => "[" ++ jsonListStr elems ++ "]"
  | .obj fields => "\x7b" ++ jsonObjStr fields ++ "\x7d"

/-- Comma-separated rendering of a JSON array body for jsonToStr. -/
def jsonListStr : List Json → String
  | [] => ""
  | [x] => jsonToStr x
  | x :: y :: xs => jsonToStr x ++ ", " ++ jsonListStr (y :: xs)

/-- Comma-separated rendering of a JSON object body for jsonToStr. -/
def jsonObjStr : List (String × Json) → String
  | [] => ""
  | [(k, v)] => k ++ ": " ++ jsonToStr v
  | (k, v) :: f :: fs => k ++ ": " ++ jsonToStr v ++ ", " ++ jsonObjStr (f :: fs)

end

/-- Python "\n\n".join and friends: list of strings joined by a
separator. -/
def joinSep (sep : String) : List String → String
  | [] => ""
  | [x] => x
  | x :: y :: xs => x ++ sep ++ joinSep sep (y :: xs)

/-- Message dictionary of a conversation: role and content as optional
strings (dict .get semantics).  Non-string roles would raise in the source
(str.title on a non-string) and non-string contents are pre-rendered via
jsonToStr when converting from JSON. -/
structure PyMessage where
  role : Option String
  content : Option String
deriving DecidableEq, Repr

/-- Role normalization of _format_messages_as_text (claude_conversations.py
lines 156-164), as the code computes it: title-case first, then compare
the lowercase form. -/
def codeNormalizeRole (role0 : String) : String :=
  let role := pyTitle role0
  if pyLower role ∈ (["human", "user"] : List String) then "Human"
  else if pyLower role ∈ (["assistant", "claude"] : List String) then "Assistant"
  else role

/-- Embeds ClaudeConversationIngestor._format_messages_as_text
(claude_conversations.py lines 151-167): the "\n\n"-joined
"<Role>: <content>" blocks. -/
def _format_messages_as_text (messages : List PyMessage) : String :=
  joinSep "\n\n" (messages.map (fun msg =>
    codeNormalizeRole (msg.role.getD "unknown") ++ ": " ++ msg.content.getD ""))

/-- Role normalization as the specification states it: compare the
lowercase form of the original role, pass unrecognized roles through
title-cased. -/
def specNormalizeRole (role : String) : String :=
  if pyLower role ∈ (["human", "user"] : List String) then "Human"
  else if pyLower role ∈ (["assistant", "claude"] : List String) then "Assistant"
  else pyTitle role

/-- Python for-loop that appends one result per element and lets an
exception abort the whole loop (the list under construction is
discarded). -/
def traverseExcept (f : α → Except String β) : List α → Except String (List β)
  | [] => .ok []
  | a :: as =>
    match f a with
    | .error e => .error e
    | .ok b =>
      match traverseExcept f as with
      | .error e => .error e
      | .ok bs => .ok (b :: bs)

/-- Conversion of one element of a messages list (claude_conversations.py
lines 155-157): msg.get(...) raises AttributeError on a non-dict element,
and .title() raises AttributeError when the role value is not a string;
a present content value of any type is rendered by the f-string via
str().  Exception texts are abbreviated. -/
def jsonMessage1 (m : Json) : Except String PyMessage :=
  match m with
  | .obj _ =>
    match jsonGet m "role" with
    | some (.str r) => .ok { role := some r, content := (jsonGet m "content").map jsonToStr }
    | none => .ok { role := none, content := (jsonGet m "content").map jsonToStr }
    | some _ => .error "AttributeError: role value has no attribute title"
  | _ => .error "AttributeError: message entry has no attribute get"

/-- Iteration over a messages value (claude_conversations.py line 155):
a list iterates its elements; a non-empty string or dict iterates
strings, so the first msg.get raises AttributeError; an empty string or
dict iterates nothing and yields no messages; everything else raises
TypeError on iteration.  Exception texts are abbreviated. -/
def jsonMessages : Json → Except String (List PyMessage)
  | .arr elems => traverseExcept jsonMessage1 elems
  | .str s =>
    if s.isEmpty then .ok []
    else .error "AttributeError: str object has no attribute get"
  | .obj fields =>
    if fields.isEmpty then .ok []
    else .error "AttributeError: str object has no attribute get"
  | _ => .error "TypeError: messages value is not iterable"

/-- Metadata dictionary of a canonical record (claude_conversations.py
lines 134-143). -/
structure ConvMetadata where
  source_type : String
  source_file : String
  title : String
  conversation_index : Nat
  created_at : Option String
  updated_at : Option String
  parsed_at : String
  format : String
deriving DecidableEq, Repr

/-- Canonical record produced by parsing (claude_conversations.py
lines 145-149). -/
structure ConvRecord where
  document_text : String
  metadata : ConvMetadata
  title : String
deriving DecidableEq, Repr

/-- Embeds ClaudeConversationIngestor._extract_conversation_as_document
(claude_conversations.py lines 117-149).  now is the
datetime.now().isoformat() timestamp.  On a non-dict conv_data the source
raises: the membership test (line 120) raises TypeError on non-iterable
values, and for strings/lists either the messages subscript (line 122)
raises TypeError (when the membership test succeeds) or .get (line 128)
raises AttributeError; these paths return an error here, with abbreviated
exception texts.  Non-string title/created_at/updated_at/format values
(which Python would pass through untyped into the record) are coerced to
the respective defaults; no claim exercises them. -/
def _extract_conversation_as_document (now : String) (conv_data : Json)
    (source_path : String) (index : Nat) : Except String ConvRecord :=
  match conv_data with
  | .obj _ =>
    match jsonGet conv_data "messages" with
    | some msgs_value =>
      match jsonMessages msgs_value with
      | .error e => .error e
      | .ok msgs =>
        let doc_text := _format_messages_as_text msgs
        let title := ((jsonGet conv_data "title").bind jsonAsStr).getD
          ("Claude Conversation " ++ toString (index + 1))
        .ok { document_text := doc_text
              metadata :=
                { source_type := "claude_conversation"
                  source_file := source_path
                  title := title
                  conversation_index := index
                  created_at := (jsonGet conv_data "created_at").bind jsonAsStr
                  updated_at := (jsonGet conv_data "updated_at").bind jsonAsStr
                  parsed_at := now
                  format := ((jsonGet conv_data "format").bind jsonAsStr).getD "json" }
              title := title }
    | none =>
      let doc_text := match jsonGet conv_data "raw_content" with
        | some (.str s) => s
        | _ => jsonToStr conv_data
      let title := "Claude Conversation " ++ toString (index + 1)
      .ok { document_text := doc_text
            metadata :=
              { source_type := "claude_conversation"
                source_file := source_path
                title := title
                conversation_index := index
                created_at := none
                updated_at := none
                parsed_at := now
                format := ((jsonGet conv_data "format").bind jsonAsStr).getD "json" }
            title := title }
  | .str s =>
    .error (if strContains s "messages" then
        "TypeError: string indices must be integers"
      else "AttributeError: str object has no attribute get")
  | .arr elems =>
    .error (if elems.any (fun j =>
          match j with
          | .str t => t = "messages"
          | _ => false) then
        "TypeError: list indices must be integers"
      else "AttributeError: list object has no attribute get")
  | _ => .error "TypeError: conv data is not iterable"

/-- Embeds ClaudeConversationIngestor._parse_json_conversations
(claude_conversations.py lines 84-102): a JSON list is walked in order
with one extraction per element, a JSON dict yields one extraction, a
decode error or scalar value yields zero records without raising.  The
except clause catches only JSONDecodeError, so a TypeError/AttributeError
from an extraction propagates out. -/
def _parse_json_conversations (jsonLoads : String → Except String Json)
    (now : String) (content source_path : String) : Except String (List ConvRecord) :=
  match jsonLoads content with
  | .ok (.arr data) =>
      traverseExcept
        (fun ic => _extract_conversation_as_document now ic.2 source_path ic.1)
        data.enum
  | .ok (.obj fields) =>
      match _extract_conversation_as_document now (.obj fields) source_path 0 with
      | .error e => .error e
      | .ok r => .ok [r]
  | .ok _ => .ok []
  | .error _ => .ok []

/-- Embeds ClaudeConversationIngestor._parse_text_conversations
(claude_conversations.py lines 104-115): the whole file is one
conversation dictionary with a raw_content field (the extraction cannot
fail on it, it being a dict without a messages key). -/
def _parse_text_conversations (now : String) (content source_path : String) :
    Except String (List ConvRecord) :=
  match _extract_conversation_as_document now
      (Json.obj
        [("raw_content", .str content), ("source_file", .str source_path),
         ("format", .str "text"), ("parsed_at", .str now),
         ("conversation_index", .num 0)])
      source_path 0 with
  | .error e => .error e
  | .ok r => .ok [r]

/-- Embeds ClaudeConversationIngestor.parse_source (claude_conversations.py
lines 74-82): read the file (raising when it is missing), dispatch on the
lowercased suffix. -/
def parse_source (fs : String → Option String)
    (jsonLoads : String → Except String Json) (now : String)
    (source_path : String) : Except String (List ConvRecord) :=
  match fs source_path with
  | none => .error ("No such file or directory: " ++ source_path)
  | some content =>
    if pyLower (pathSuffix source_path) = ".json" then
      _parse_json_conversations jsonLoads now content source_path
    else
      _parse_text_conversations now content source_path

/-- Message dictionary as the specification describes it (§4.2: an ordered
sequence of role/content objects): an object whose role value, when
present, is a string. -/
def isMessageDict : Json → Bool
  | .obj fields =>
    match fields.lookup "role" with
    | some (.str _) => true
    | none => true
    | some _ => false
  | _ => false

/-- Conversation object as the specification describes it (§4.2: a JSON
object whose messages field, when present, is an ordered sequence of
role/content objects).  On any other array element the source raises
TypeError or AttributeError out of parse_source. -/
def isConversationObject : Json → Bool
  | .obj fields =>
    match fields.lookup "messages" with
    | none => true
    | some (.arr msgs) => msgs.all isMessageDict
    | some _ => false
  | _ => false

/-- Embeds ClaudeConversationIngestor.get_supported_formats
(claude_conversations.py lines 31-33). -/
def get_supported_formats : List String := [".txt", ".json", ".md"]

/-- Conversation-marker test of validate_source (claude_conversations.py
line 65). -/
def hasConversationMarker (content : String) : Bool :=
  (["human:", "assistant:", "claude:", "user:"] : List String).any
    (fun marker => strContains (pyLower content) marker)

/-- Embeds ClaudeConversationIngestor.validate_source
(claude_conversations.py lines 39-72): existence, then supported suffix,
then non-blank content; JSON files whose content decodes to a dict or list
are accepted, anything else falls through the marker check to the
catch-all acceptance.  Reading the file cannot raise in this model, so the
"Error reading file" branch is unreachable. -/
def validate_source (fs : String → Option String)
    (jsonLoads : String → Except String Json) (source_path : String) :
    Bool × Option String :=
  match fs source_path with
  | none => (false, some ("Source path does not exist: " ++ source_path))
  | some content =>
    if pyLower (pathSuffix source_path) ∉ get_supported_formats then
      (false, some ("Unsupported file format: " ++ pathSuffix source_path))
    else if (pyStrip content).length = 0 then
      (false, some "File is empty")
    else if pyLower (pathSuffix source_path) = ".json" then
      match jsonLoads content with
      | .ok (.obj _) => (true, none)
      | .ok (.arr _) => (true, none)
      | _ =>
        if hasConversationMarker content then (true, none) else (true, none)
    else
      if hasConversationMarker content then (true, none) else (true, none)

/-- Transformed record of transform_record (claude_conversations.py
lines 180-187): backend fields plus the transient _temp_file_path key. -/
structure TransformedRecord where
  pdf_file : String
  document_metadata : String
  ingested_at : String
  temp_file_path : Option String
deriving DecidableEq, Repr

/-- Fields that survive the underscore filter of _store_pixeltable
(claude_conversations.py line 271). -/
structure StoredFields where
  pdf_file : String
  document_metadata : String
  ingested_at : String
deriving DecidableEq, Repr

/-- Underscore filter of _store_pixeltable (claude_conversations.py
line 271): drop the transient keys before insertion. -/
def stripTransient (r : TransformedRecord) : StoredFields :=
  { pdf_file := r.pdf_file
    document_metadata := r.document_metadata
    ingested_at := r.ingested_at }

/-- Sanitized title of _create_temp_document (claude_conversations.py
line 194): non word/dash/dot characters become underscores, truncated to
50 characters (ASCII model of the regex character class). -/
def safeTitle (title : String) : String :=
  ⟨(title.data.map (fun c =>
      if c.isAlphanum || c = '_' || c = '-' || c = '.' then c else '_')).take 50⟩

/-- Temp directory used for staged documents (claude_conversations.py
line 197), with a fixed model of tempfile.gettempdir(). -/
def tempDirPath : String := "/tmp/takeout_ingestor_docs"

/-- Staged file path of _create_temp_document (claude_conversations.py
lines 195-200); timestamp is the strftime value. -/
def tempDocPath (timestamp title : String) : String :=
  tempDirPath ++ "/" ++ "claude_conv_" ++ timestamp ++ "_" ++ safeTitle title ++ ".txt"

/-- Document content written by _create_temp_document
(claude_conversations.py lines 203-210): metadata header, separator rule
of 50 equals signs, then the body. -/
def tempDocContent (title source_type : String) (created_at : Option String)
    (parsed_at text : String) : String :=
  "Title: " ++ title ++ "\n" ++
  "Source: " ++ source_type ++ "\n" ++
  (match created_at with
   | some c => "Created: " ++ c ++ "\n"
   | none => "") ++
  "Parsed: " ++ parsed_at ++ "\n" ++
  "\n" ++ String.mk (List.replicate 50 '=') ++ "\n\n" ++ text

/-- Embeds ClaudeConversationIngestor.transform_record
(claude_conversations.py lines 169-189) over a file-system state given as
the list of staged file paths: creates the staged blob, returns the
transformed record carrying the blob path under the transient key.
jsonDumps is the external json.dumps hook; timestamp/now are the wall
clock readings. -/
def transform_record (jsonDumps : ConvMetadata → String)
    (timestamp now : String) (record : ConvRecord) (files : List String) :
    TransformedRecord × List String :=
  let temp_file := tempDocPath timestamp record.title
  ({ pdf_file := temp_file
     document_metadata := jsonDumps record.metadata
     ingested_at := now
     temp_file_path := some temp_file },
   files ++ [temp_file])

/-- Embeds ClaudeConversationIngestor._store_pixeltable
(claude_conversations.py lines 265-284): insert the record without its
transient keys; only after a successful insert, delete the staged temp
file, where a deletion failure is logged and swallowed; an insert failure
is logged and re-raised with the temp file untouched.  insertFn is the
external table.insert, unlinkFails says whether Path.unlink raises for a
path, files is the set of existing staged files. -/
def _store_pixeltable (insertFn : StoredFields → Except String Unit)
    (unlinkFails : String → Bool) (record : TransformedRecord)
    (files : List String) : Except String Unit × List String :=
  match insertFn (stripTransient record) with
  | .error e => (.error e, files)
  | .ok _ =>
    match record.temp_file_path with
    | none => (.ok (), files)
    | some temp_file =>
      if temp_file ∈ files then
        if unlinkFails temp_file then (.ok (), files)
        else (.ok (), files.erase temp_file)
      else (.ok (), files)

theorem chunksOf_flatten (n : Nat) (xs : List α) : (chunksOf n xs).flatten = xs := by
  induction n, xs using chunksOf.induct with
  | case1 n => simp [chunksOf]
  | case2 x xs => simp [chunksOf]
  | case3 n x xs ih => simp [chunksOf, ih]

theorem chunksOf_ne_nil (n : Nat) (xs : List α) (b : List α)
    (hb : b ∈ chunksOf n xs) : b ≠ [] := by
  induction n, xs using chunksOf.induct with
  | case1 n => simp [chunksOf] at hb
  | case2 x xs => simp [chunksOf] at hb; simp [hb]
  | case3 n x xs ih =>
    simp only [chunksOf, List.mem_cons] at hb
    rcases hb with h | h
    · subst h; simp
    · exact ih h

theorem length_filter_add_length_filter_not (q : α → Bool) (l : List α) :
    (l.filter q).length + (l.filter (fun a => !(q a))).length = l.length := by
  induction l with
  | nil => rfl
  | cons a l ih =>
    by_cases h : q a <;> simp [List.filter_cons, h] <;> omega

theorem processBatchLoop_counts
    (transform_record : Rec → Except String TRec)
    (store_pixeltable : TRec → Except String Unit)
    (batch : List Rec) :
    ∀ (processed failed : Nat) (p : IngestorProgress),
      (processBatchLoop transform_record store_pixeltable batch (processed, failed, p)).1 =
        processed + (batch.filter (recordOk transform_record store_pixeltable)).length ∧
      (processBatchLoop transform_record store_pixeltable batch (processed, failed, p)).2.1 =
        failed + (batch.filter
          (fun r => !(recordOk transform_record store_pixeltable r))).length := by
  induction batch with
  | nil => intro processed failed p; simp [processBatchLoop]
  | cons r rest ih =>
    intro processed failed p
    rcases h1 : transform_record r with e | t
    · have hok : recordOk transform_record store_pixeltable r = false := by
        simp [recordOk, h1]
      simp only [processBatchLoop, h1, List.filter_cons, hok, Bool.not_false, if_false]
      have := ih processed (failed + 1) (p.add_error ("Record processing: " ++ e))
      simpa [Nat.add_assoc, Nat.add_comm, Nat.add_left_comm] using this
    · rcases h2 : store_pixeltable t with e | u
      · have hok : recordOk transform_record store_pixeltable r = false := by
          simp [recordOk, h1, h2]
        simp only [processBatchLoop, h1, h2, List.filter_cons, hok, Bool.not_false, if_false]
        have := ih processed (failed + 1) (p.add_error ("Record processing: " ++ e))
        simpa [Nat.add_assoc, Nat.add_comm, Nat.add_left_comm] using this
      · have hok : recordOk transform_record store_pixeltable r = true := by
          simp [recordOk, h1, h2]
        simp only [processBatchLoop, h1, h2, List.filter_cons, hok, Bool.not_true, if_true]
        have := ih (processed + 1) failed p
        simpa [Nat.add_assoc, Nat.add_comm, Nat.add_left_comm] using this

/-- C10: for every batch, _process_batch returns (without raising) counts
whose sum is the batch length, each record contributing to exactly one of
the two counts: a record whose transform or store raises counts as failed,
every other record as processed. -/
theorem C10_process_batch_partition
    (transform_record : Rec → Except String TRec)
    (store_pixeltable : TRec → Except String Unit)
    (batch : List Rec) (p : IngestorProgress) :
    (default_process_batch transform_record store_pixeltable batch p).1 =
      .ok ((batch.filter (recordOk transform_record store_pixeltable)).length,
           (batch.filter (fun r => !(recordOk transform_record store_pixeltable r))).length) ∧
    (batch.filter (recordOk transform_record store_pixeltable)).length +
      (batch.filter (fun r => !(recordOk transform_record store_pixeltable r))).length =
      batch.length := by
  have h := processBatchLoop_counts transform_record store_pixeltable batch 0 0 p
  constructor
  · unfold default_process_batch
    rcases hres : processBatchLoop transform_record store_pixeltable batch (0, 0, p) with
      ⟨processed, failed, p1⟩
    rw [hres] at h
    simp only [] at h
    refine congrArg Except.ok ?_
    refine Prod.ext ?_ ?_ <;> simp <;> omega
  · exact length_filter_add_length_filter_not _ _

theorem ingestBatches_append
    (pb : List Rec → IngestorProgress → Except String (Nat × Nat) × IngestorProgress)
    (l1 l2 : List (List Rec)) :
    ∀ (n : Nat) (acc : Nat × Nat × IngestorProgress),
      ingestBatches pb (l1 ++ l2) n acc =
        ingestBatches pb l2 (n + l1.length) (ingestBatches pb l1 n acc) := by
  induction l1 with
  | nil => intro n acc; simp [ingestBatches]
  | cons b rest ih =>
    intro n acc
    rcases acc with ⟨pc, fc, p⟩
    rcases hpb : pb b p with ⟨res, p1⟩
    rcases res with e | counts <;>
      (simp only [List.cons_append, ingestBatches, hpb, List.append_eq, List.length_cons]
       rw [show n + (rest.length + 1) = n + 1 + rest.length by omega]
       exact ih (n + 1) _)

theorem ingestBatches_all_ok
    (pb : List Rec → IngestorProgress → Except String (Nat × Nat) × IngestorProgress)
    (bs : List (List Rec))
    (hok : ∀ b ∈ bs, ∀ q, pb b q = (.ok (b.length, 0), q)) :
    ∀ (n pc fc : Nat) (p : IngestorProgress),
      ingestBatches pb bs n (pc, fc, p) =
        (pc + (bs.map List.length).sum, fc,
          { p with processed_items := p.processed_items + (bs.map List.length).sum }) := by
  induction bs with
  | nil => intro n pc fc p; simp [ingestBatches]
  | cons b rest ih =>
    intro n pc fc p
    have hb := hok b (List.mem_cons_self b rest) p
    simp only [ingestBatches, hb]
    rw [ih (fun x hx => hok x (List.mem_cons_of_mem _ hx))]
    simp only [List.map_cons, List.sum_cons, IngestorProgress.update]
    refine Prod.ext (by omega) (Prod.ext rfl ?_)
    simp only []
    congr 1
    omega

/-- C1 amended: in a run where the records split into batches and exactly
one batch's _process_batch call raises while every other batch succeeds in
full, the exception does not propagate out of ingest, the run reaches the
terminal Failed status with a returned summary whose failed_records equals
the full size of the failing batch, ProgressState.processed_items equals
the total size of the non-failing batches, but ProgressState.failed_items
is left unchanged at 0: the batch-level failure is recorded in the error
log and in the summary counters only, never added to failed_items. -/
theorem C1_batch_isolation {Rec : Type}
    (validate_source : String → Bool × Option String)
    (parse_source : String → Except String (List Rec))
    (process_batch : List Rec → IngestorProgress →
      Except String (Nat × Nat) × IngestorProgress)
    (table_name : String) (batch_size : Nat) (source_path : String)
    (records : List Rec) (pre post : List (List Rec)) (bad : List Rec) (emsg : String)
    (hval : validate_source source_path = (true, none))
    (hparse : parse_source source_path = .ok records)
    (hchunks : chunksOf batch_size records = pre ++ bad :: post)
    (hok : ∀ b ∈ pre ++ post, ∀ q, process_batch b q = (.ok (b.length, 0), q))
    (hbad : ∀ q, process_batch bad q = (.error emsg, q)) :
    ∃ s : IngestSummary,
      (ingest (.ok ()) validate_source parse_source process_batch table_name batch_size
          source_path false {}).1 = .ok (.summary s) ∧
      s.failed_records = bad.length ∧
      s.processed_records = ((pre ++ post).map List.length).sum ∧
      (ingest (.ok ()) validate_source parse_source process_batch table_name batch_size
          source_path false {}).2.status = .failed ∧
      (ingest (.ok ()) validate_source parse_source process_batch table_name batch_size
          source_path false {}).2.processed_items = ((pre ++ post).map List.length).sum ∧
      (ingest (.ok ()) validate_source parse_source process_batch table_name batch_size
          source_path false {}).2.failed_items = 0 := by
  have hbadne : bad ≠ [] :=
    chunksOf_ne_nil batch_size records bad (by rw [hchunks]; simp)
  have hbadlen : 0 < bad.length := List.length_pos.mpr hbadne
  have hokpre : ∀ b ∈ pre, ∀ q, process_batch b q = (.ok (b.length, 0), q) :=
    fun b hb q => hok b (List.mem_append_left _ hb) q
  have hokpost : ∀ b ∈ post, ∀ q, process_batch b q = (.ok (b.length, 0), q) :=
    fun b hb q => hok b (List.mem_append_right _ hb) q
  have hloop : ∀ (p1 : IngestorProgress),
      ingestBatches process_batch (chunksOf batch_size records) 1 (0, 0, p1) =
        ((pre.map List.length).sum + (post.map List.length).sum, bad.length,
         { p1 with
             processed_items :=
               p1.processed_items + (pre.map List.length).sum + (post.map List.length).sum
             errors := p1.errors ++
               ["Batch " ++ toString (1 + pre.length) ++ ": " ++ emsg] }) := by
    intro p1
    rw [hchunks, ingestBatches_append,
      ingestBatches_all_ok process_batch pre hokpre 1 0 0 p1]
    simp only [ingestBatches, hbad, Nat.zero_add]
    rw [ingestBatches_all_ok process_batch post hokpost]
    simp [IngestorProgress.add_error, Nat.add_assoc]
  have hbody :
      ingestBody (.ok ()) validate_source parse_source process_batch table_name batch_size
          source_path false ({} : IngestorProgress) =
        .ok (.summary
          { total_records := records.length
            processed_records := (pre.map List.length).sum + (post.map List.length).sum
            failed_records := bad.length
            success_rate := rateOf
              ((pre.map List.length).sum + (post.map List.length).sum) bad.length
            table_name := table_name },
          { total_items := records.length
            processed_items := (pre.map List.length).sum + (post.map List.length).sum
            failed_items := 0
            status := .failed
            errors := ["Batch " ++ toString (1 + pre.length) ++ ": " ++ emsg] }) := by
    simp only [ingestBody, hval, hparse]
    rw [hloop]
    simp [if_neg (by omega : ¬ bad.length = 0)]
  have hing :
      ingest (.ok ()) validate_source parse_source process_batch table_name batch_size
          source_path false ({} : IngestorProgress) =
        (.ok (.summary
          { total_records := records.length
            processed_records := (pre.map List.length).sum + (post.map List.length).sum
            failed_records := bad.length
            success_rate := rateOf
              ((pre.map List.length).sum + (post.map List.length).sum) bad.length
            table_name := table_name }),
          { total_items := records.length
            processed_items := (pre.map List.length).sum + (post.map List.length).sum
            failed_items := 0
            status := .failed
            errors := ["Batch " ++ toString (1 + pre.length) ++ ": " ++ emsg] }) := by
    unfold ingest
    rw [hbody]
  refine ⟨_, by rw [hing], rfl, by simp, by rw [hing], by rw [hing]; simp, by rw [hing]⟩

/-- C1 counterexample: a concrete run with three singleton batches in which
the second batch's _process_batch call raises.  The run returns a summary
counting the failing batch in failed_records, yet ProgressState.failed_items
stays 0 instead of the failing batch's size 1: the claim that failed_items
equals the full size of the failing batch is false on the code. -/
theorem C1_counterexample :
    (ingest (.ok ()) (fun _ => (true, none)) (fun _ => .ok [10, 20, 30])
        (fun b q => if b = [20] then (.error "boom", q) else (.ok (b.length, 0), q))
        "t" 1 "src.json" false {}).2.failed_items = 0 ∧
    ([20] : List Nat).length = 1 ∧ (0 : Nat) ≠ 1 := by
  refine ⟨?_, rfl, by decide⟩
  simp [ingest, ingestBody, ingestBatches, chunksOf, IngestorProgress.update,
    IngestorProgress.add_error]

/-- Witness for C1_batch_isolation at the concrete three-batch run of the
counterexample. -/
theorem C1_batch_isolation_witness :
    ∃ s : IngestSummary,
      (ingest (.ok ()) (fun _ => (true, none)) (fun _ => .ok [10, 20, 30])
          (fun b q => if b = [20] then (.error "boom", q) else (.ok (b.length, 0), q))
          "t" 1 "src.json" false {}).1 = .ok (.summary s) ∧
      s.failed_records = ([20] : List Nat).length ∧
      s.processed_records = ((([[10]] : List (List Nat)) ++ [[30]]).map List.length).sum ∧
      (ingest (.ok ()) (fun _ => (true, none)) (fun _ => .ok [10, 20, 30])
          (fun b q => if b = [20] then (.error "boom", q) else (.ok (b.length, 0), q))
          "t" 1 "src.json" false {}).2.status = .failed ∧
      (ingest (.ok ()) (fun _ => (true, none)) (fun _ => .ok [10, 20, 30])
          (fun b q => if b = [20] then (.error "boom", q) else (.ok (b.length, 0), q))
          "t" 1 "src.json" false {}).2.processed_items =
        ((([[10]] : List (List Nat)) ++ [[30]]).map List.length).sum ∧
      (ingest (.ok ()) (fun _ => (true, none)) (fun _ => .ok [10, 20, 30])
          (fun b q => if b = [20] then (.error "boom", q) else (.ok (b.length, 0), q))
          "t" 1 "src.json" false {}).2.failed_items = 0 :=
  C1_batch_isolation (fun _ => (true, none)) (fun _ => .ok [10, 20, 30])
    (fun b q => if b = [20] then (.error "boom", q) else (.ok (b.length, 0), q))
    "t" 1 "src.json" [10, 20, 30] [[10]] [[30]] [20] "boom" rfl rfl
    (by simp [chunksOf])
    (by
      intro b hb q
      rcases List.mem_append.mp hb with h | h <;>
        (rw [List.mem_singleton.mp h]; rfl))
    (fun q => rfl)

/-- C2 amended: for every source that passes validation and parsing,
ingest with validate_only=true returns early a report with the parsed
record count and the first record as sample, performs no transform or
store call (the result does not depend on the batch-processing hook),
but the status IS moved to Running (and total_items set) before the early
return; no transition beyond Running occurs. -/
theorem C2_validate_only {Rec : Type}
    (validate_source : String → Bool × Option String)
    (parse_source : String → Except String (List Rec))
    (process_batch : List Rec → IngestorProgress →
      Except String (Nat × Nat) × IngestorProgress)
    (table_name : String) (batch_size : Nat) (source_path : String)
    (records : List Rec) (p0 : IngestorProgress)
    (hval : validate_source source_path = (true, none))
    (hparse : parse_source source_path = .ok records) :
    ingest (.ok ()) validate_source parse_source process_batch table_name batch_size
        source_path true p0 =
      (.ok (.report records.length records.head?),
       { p0 with total_items := records.length, status := .running }) := by
  simp [ingest, ingestBody, hval, hparse]

/-- C2 counterexample: on a concrete passing source, a validate_only run
leaves the ProgressState status at Running, refuting the claim that the
status is never moved to Running. -/
theorem C2_counterexample :
    (ingest (.ok ()) (fun _ => (true, none)) (fun _ => .ok ([7] : List Nat))
        (fun b q => (.ok (b.length, 0), q)) "doc_search.all_documents" 100
        "conversations.json" true {}).2.status = .running ∧
    IngestorStatus.running ≠ IngestorStatus.pending := by
  exact ⟨rfl, by decide⟩

/-- Witness for C2_validate_only at a concrete passing source. -/
theorem C2_validate_only_witness :
    ingest (.ok ()) (fun _ => (true, none)) (fun _ => .ok ([7] : List Nat))
        (fun b q => (.ok (b.length, 0), q)) "doc_search.all_documents" 100
        "conversations.json" true {} =
      (.ok (.report 1 (some 7)), { total_items := 1, status := .running }) :=
  C2_validate_only (fun _ => (true, none)) (fun _ => .ok [7])
    (fun b q => (.ok (b.length, 0), q)) "doc_search.all_documents" 100
    "conversations.json" [7] {} rfl rfl

/-- C4: for every exception raised during backend initialization, source
validation, or parsing (steps 1–3 of ingest), ingest re-raises that
exception to the caller, and before re-raising appends the exception
message to ProgressState.errors and sets ProgressState.status to Failed. -/
theorem C4_fatal_steps {Rec : Type}
    (initialize_backend : Except String Unit)
    (validate_source : String → Bool × Option String)
    (parse_source : String → Except String (List Rec))
    (process_batch : List Rec → IngestorProgress →
      Except String (Nat × Nat) × IngestorProgress)
    (table_name : String) (batch_size : Nat) (source_path : String)
    (validate_only : Bool) (p0 : IngestorProgress) :
    (∀ e, initialize_backend = .error e →
      ingest initialize_backend validate_source parse_source process_batch table_name
          batch_size source_path validate_only p0 =
        (.error e, { p0.add_error e with status := .failed })) ∧
    (∀ m, initialize_backend = .ok () → validate_source source_path = (false, m) →
      ingest initialize_backend validate_source parse_source process_batch table_name
          batch_size source_path validate_only p0 =
        (.error ("Source validation failed: " ++ pyFormatOpt m),
         { p0.add_error ("Source validation failed: " ++ pyFormatOpt m) with
             status := .failed })) ∧
    (∀ e m, initialize_backend = .ok () → validate_source source_path = (true, m) →
      parse_source source_path = .error e →
      ingest initialize_backend validate_source parse_source process_batch table_name
          batch_size source_path validate_only p0 =
        (.error e, { p0.add_error e with status := .failed })) := by
  refine ⟨fun e he => ?_, fun m hi hv => ?_, fun e m hi hv hp => ?_⟩ <;>
    simp [ingest, ingestBody, *]

/-- Witness for C4_fatal_steps: a backend-initialization failure, a failed
validation, and a parse failure, each on concrete hooks. -/
theorem C4_fatal_steps_witness :
    (ingest (.error "pixeltable unavailable") (fun _ => (true, none))
        (fun _ => .ok ([] : List Nat)) (fun b q => (.ok (b.length, 0), q)) "t" 100 "src.json" false {} =
      (.error "pixeltable unavailable",
       { status := .failed, errors := ["pixeltable unavailable"] })) ∧
    (ingest (.ok ()) (fun s => (false, some ("Source path does not exist: " ++ s)))
        (fun _ => .ok ([] : List Nat)) (fun b q => (.ok (b.length, 0), q)) "t" 100 "missing.json" false {} =
      (.error "Source validation failed: Source path does not exist: missing.json",
       { status := .failed,
         errors := ["Source validation failed: Source path does not exist: missing.json"] })) ∧
    (ingest (.ok ()) (fun _ => (true, none))
        (fun _ => (.error "read error" : Except String (List Nat))) (fun b q => (.ok (b.length, 0), q)) "t" 100
        "src.json" false {} =
      (.error "read error", { status := .failed, errors := ["read error"] })) :=
  ⟨(C4_fatal_steps (.error "pixeltable unavailable") (fun _ => (true, none))
      (fun _ => .ok []) (fun b q => (.ok (b.length, 0), q)) "t" 100 "src.json" false {}).1
      "pixeltable unavailable" rfl,
   (C4_fatal_steps (.ok ()) (fun s => (false, some ("Source path does not exist: " ++ s)))
      (fun _ => .ok []) (fun b q => (.ok (b.length, 0), q)) "t" 100 "missing.json" false {}).2.1
      (some "Source path does not exist: missing.json") rfl rfl,
   (C4_fatal_steps (.ok ()) (fun _ => (true, none))
      (fun _ => .error "read error") (fun b q => (.ok (b.length, 0), q)) "t" 100
      "src.json" false {}).2.2
      "read error" none rfl rfl rfl⟩

/-- C7: for every ProgressState, completion_percentage equals
processed_items/total_items×100 (which in ℚ is 0 when total_items is 0, so
no division by zero occurs), and success_rate equals
(processed_items−failed_items)/processed_items×100 (0 when processed_items
is 0). -/
theorem C7_progress_math (p : IngestorProgress) :
    (p.total_items = 0 → p.completion_percentage = 0) ∧
    (p.total_items ≠ 0 →
      p.completion_percentage = ((p.processed_items : ℚ) / (p.total_items : ℚ)) * 100) ∧
    (p.processed_items = 0 → p.success_rate = 0) ∧
    (p.processed_items ≠ 0 →
      p.success_rate =
        (((p.processed_items : ℚ) - (p.failed_items : ℚ)) / (p.processed_items : ℚ)) * 100) := by
  refine ⟨fun h => ?_, fun h => ?_, fun h => ?_, fun h => ?_⟩ <;>
    simp [IngestorProgress.completion_percentage, IngestorProgress.success_rate, h]

/-- Witness for C7_progress_math: instantiated at a concrete ProgressState,
discharging each hypothesis. -/
theorem C7_progress_math_witness :
    ({ total_items := 0, processed_items := 0 : IngestorProgress }).completion_percentage = 0 ∧
    ({ total_items := 0, processed_items := 0 : IngestorProgress }).success_rate = 0 ∧
    ({ total_items := 4, processed_items := 3, failed_items := 1 :
        IngestorProgress }).completion_percentage = (3 : ℚ) / 4 * 100 ∧
    ({ total_items := 4, processed_items := 3, failed_items := 1 :
        IngestorProgress }).success_rate = ((3 : ℚ) - 1) / 3 * 100 :=
  ⟨(C7_progress_math _).1 rfl,
   (C7_progress_math _).2.2.1 rfl,
   (C7_progress_math _).2.1 (by decide),
   (C7_progress_math _).2.2.2 (by decide)⟩

/-- C5 counterexample: pause called on a Completed ProgressState changes the
status to Paused, so terminal states do admit outgoing transitions. -/
theorem C5_counterexample :
    (pause { status := .completed }).status = .paused ∧
    IngestorStatus.paused ≠ IngestorStatus.completed := by
  exact ⟨rfl, by decide⟩

/-- C5 amended: once the status is Completed or Failed, update never changes
the status, but pause and resume do change it (to Paused respectively
Running) — the code does not enforce terminality of Completed/Failed. -/
theorem C5_terminal_transitions (p : IngestorProgress)
    (_h : p.status = .completed ∨ p.status = .failed) :
    (∀ a b, (p.update a b).status = p.status) ∧
    (∀ e, (p.add_error e).status = p.status) ∧
    (pause p).status = .paused ∧
    (resume p).status = .running := by
  exact ⟨fun a b => rfl, fun e => rfl, rfl, rfl⟩

/-- Witness for C5_terminal_transitions at a concrete Completed state. -/
theorem C5_terminal_transitions_witness :
    (({ status := .completed : IngestorProgress }).update 1 0).status = .completed ∧
    (pause { status := .completed }).status = .paused :=
  ⟨(C5_terminal_transitions { status := .completed } (Or.inl rfl)).1 1 0,
   (C5_terminal_transitions { status := .completed } (Or.inl rfl)).2.2.1⟩

theorem toNat_ofNat_valid (n : Nat) (h : n.isValidChar) : (Char.ofNat n).toNat = n := by
  simp [Char.ofNat, h]
  rfl

theorem toLower_toUpper (c : Char) : c.toUpper.toLower = c.toLower := by
  by_cases h : c.toNat ≥ 97 ∧ c.toNat ≤ 122
  · have h1 : c.toUpper = Char.ofNat (c.toNat - 32) := by
      simp only [Char.toUpper]
      rw [if_pos h]
    have hv : (c.toNat - 32).isValidChar := Or.inl (by omega)
    have ht : (Char.ofNat (c.toNat - 32)).toNat = c.toNat - 32 := toNat_ofNat_valid _ hv
    rw [h1]
    have h2 : (Char.ofNat (c.toNat - 32)).toLower = Char.ofNat (c.toNat - 32 + 32) := by
      simp only [Char.toLower, ht]
      rw [if_pos (by omega : c.toNat - 32 ≥ 65 ∧ c.toNat - 32 ≤ 90)]
    rw [h2, show c.toNat - 32 + 32 = c.toNat by omega, Char.ofNat_toNat]
    simp only [Char.toLower]
    rw [if_neg (by omega : ¬(c.toNat ≥ 65 ∧ c.toNat ≤ 90))]
  · have h1 : c.toUpper = c := by
      simp only [Char.toUpper]
      rw [if_neg h]
    rw [h1]

theorem toLower_toLower (c : Char) : c.toLower.toLower = c.toLower := by
  by_cases h : c.toNat ≥ 65 ∧ c.toNat ≤ 90
  · have h1 : c.toLower = Char.ofNat (c.toNat + 32) := by
      simp only [Char.toLower]
      rw [if_pos h]
    have hv : (c.toNat + 32).isValidChar := Or.inl (by omega)
    have ht : (Char.ofNat (c.toNat + 32)).toNat = c.toNat + 32 := toNat_ofNat_valid _ hv
    rw [h1]
    simp only [Char.toLower, ht]
    rw [if_neg (by omega : ¬(c.toNat + 32 ≥ 65 ∧ c.toNat + 32 ≤ 90))]
  · have h1 : c.toLower = c := by
      simp only [Char.toLower]
      rw [if_neg h]
    rw [h1, h1]

theorem map_toLower_pyTitleChars (cs : List Char) :
    ∀ b, (pyTitleChars b cs).map Char.toLower = cs.map Char.toLower := by
  induction cs with
  | nil => intro b; rfl
  | cons c cs ih =>
    intro b
    simp only [pyTitleChars, List.map_cons, ih]
    by_cases ha : c.isAlpha
    · cases b <;> simp [ha, toLower_toLower, toLower_toUpper]
    · simp [ha]

theorem pyLower_pyTitle (s : String) : pyLower (pyTitle s) = pyLower s :=
  congrArg String.mk (map_toLower_pyTitleChars s.data false)

theorem codeNormalizeRole_eq_spec (role : String) :
    codeNormalizeRole role = specNormalizeRole role := by
  simp only [codeNormalizeRole, specNormalizeRole, pyLower_pyTitle]

/-- C8: the rendered document text of a messages list is the
"\n\n"-joined (blank-line separated) concatenation of the
"<NormalizedRole>: <content>" blocks in message order, where role
normalization maps any role whose lowercase form is human or user to
"Human", any role whose lowercase form is assistant or claude to
"Assistant", and passes every other role through title-cased (the
specNormalizeRole definition). -/
theorem C8_role_normalization (messages : List PyMessage) :
    _format_messages_as_text messages =
      joinSep "\n\n" (messages.map (fun msg =>
        specNormalizeRole (msg.role.getD "unknown") ++ ": " ++ msg.content.getD "")) := by
  simp only [_format_messages_as_text, codeNormalizeRole_eq_spec]

theorem jsonMessage1_ok (m : Json) (hm : isMessageDict m = true) :
    ∃ pm, jsonMessage1 m = .ok pm := by
  cases m with
  | obj fields =>
    simp only [isMessageDict] at hm
    rcases hr : fields.lookup "role" with _ | v
    · exact ⟨{ role := none, content := (fields.lookup "content").map jsonToStr },
        by simp [jsonMessage1, jsonGet, hr]⟩
    · rw [hr] at hm
      rcases v with _ | b | n | s | es | fs
      · simp at hm
      · simp at hm
      · simp at hm
      · exact ⟨{ role := some s, content := (fields.lookup "content").map jsonToStr },
          by simp [jsonMessage1, jsonGet, hr]⟩
      · simp at hm
      · simp at hm
  | null => simp [isMessageDict] at hm
  | bool b => simp [isMessageDict] at hm
  | num n => simp [isMessageDict] at hm
  | str s => simp [isMessageDict] at hm
  | arr es => simp [isMessageDict] at hm

theorem traverse_jsonMessage1_ok (msgs : List Json) :
    msgs.all isMessageDict = true →
    ∃ pms, traverseExcept jsonMessage1 msgs = .ok pms := by
  induction msgs with
  | nil => intro h; exact ⟨[], rfl⟩
  | cons m ms ih =>
    intro h
    simp only [List.all_cons, Bool.and_eq_true] at h
    obtain ⟨pm, hpm⟩ := jsonMessage1_ok m h.1
    obtain ⟨pms, hpms⟩ := ih h.2
    exact ⟨pm :: pms, by simp [traverseExcept, hpm, hpms]⟩

theorem extract_ok (now : String) (c : Json) (source_path : String) (i : Nat)
    (hc : isConversationObject c = true) :
    ∃ r, _extract_conversation_as_document now c source_path i = .ok r ∧
      r.metadata.conversation_index = i := by
  cases c with
  | obj fields =>
    simp only [isConversationObject] at hc
    rcases hm : fields.lookup "messages" with _ | mv
    · rcases hx : _extract_conversation_as_document now (.obj fields) source_path i
        with e | r
      · exfalso
        simp [_extract_conversation_as_document, jsonGet, hm] at hx
      · refine ⟨r, rfl, ?_⟩
        simp only [_extract_conversation_as_document, jsonGet, hm] at hx
        rw [Except.ok.injEq] at hx
        rw [← hx]
    · rw [hm] at hc
      rcases mv with _ | b | n | s | msgs | flds
      · simp at hc
      · simp at hc
      · simp at hc
      · simp at hc
      · obtain ⟨pms, hpms⟩ := traverse_jsonMessage1_ok msgs hc
        rcases hx : _extract_conversation_as_document now (.obj fields) source_path i
          with e | r
        · exfalso
          simp [_extract_conversation_as_document, jsonMessages, jsonGet, hm, hpms] at hx
        · refine ⟨r, rfl, ?_⟩
          simp only [_extract_conversation_as_document, jsonMessages, jsonGet, hm,
            hpms] at hx
          rw [Except.ok.injEq] at hx
          rw [← hx]
      · simp at hc
  | null => simp [isConversationObject] at hc
  | bool b => simp [isConversationObject] at hc
  | num n => simp [isConversationObject] at hc
  | str s => simp [isConversationObject] at hc
  | arr es => simp [isConversationObject] at hc

theorem traverse_extract_enumFrom (now source_path : String) (convs : List Json) :
    ∀ k : Nat, (∀ c ∈ convs, isConversationObject c = true) →
    ∃ recs, traverseExcept
        (fun ic => _extract_conversation_as_document now ic.2 source_path ic.1)
        (List.enumFrom k convs) = .ok recs ∧
      recs.length = convs.length ∧
      recs.map (fun r => r.metadata.conversation_index) = List.range' k convs.length := by
  induction convs with
  | nil => intro k h; exact ⟨[], rfl, rfl, by simp⟩
  | cons c cs ih =>
    intro k h
    obtain ⟨r, hr, hidx⟩ := extract_ok now c source_path k (h c (by simp))
    obtain ⟨recs, hrecs, hlen, hmap⟩ := ih (k + 1) (fun x hx => h x (by simp [hx]))
    refine ⟨r :: recs, ?_, by simp [hlen], ?_⟩
    · simp only [List.enumFrom, traverseExcept, hr, hrecs]
    · simp [hmap, hidx, List.range'_succ]

/-- C9: a JSON source whose content decodes to a sequence of N conversation
objects (objects whose messages field, when present, is a sequence of
role/content objects, per §4.2 — on any other element the source raises
out of parse_source) parses to exactly N canonical records whose
conversation_index metadata fields are 0..N−1 in the original order; a
single JSON conversation object yields exactly one record; content that
fails to decode yields zero records without raising. -/
theorem C9_json_parse_counts
    (fs : String → Option String) (jsonLoads : String → Except String Json)
    (now source_path content : String) (convs : List Json)
    (fields : List (String × Json)) (e : String)
    (hfs : fs source_path = some content)
    (hjson : pyLower (pathSuffix source_path) = ".json") :
    (jsonLoads content = .ok (.arr convs) →
      (∀ c ∈ convs, isConversationObject c = true) →
      ∃ recs, parse_source fs jsonLoads now source_path = .ok recs ∧
        recs.length = convs.length ∧
        recs.map (fun r => r.metadata.conversation_index) = List.range convs.length) ∧
    (jsonLoads content = .ok (.obj fields) →
      isConversationObject (.obj fields) = true →
      ∃ recs, parse_source fs jsonLoads now source_path = .ok recs ∧
        recs.length = 1 ∧
        recs.map (fun r => r.metadata.conversation_index) = [0]) ∧
    (jsonLoads content = .error e →
      parse_source fs jsonLoads now source_path = .ok []) := by
  have hps : parse_source fs jsonLoads now source_path =
      _parse_json_conversations jsonLoads now content source_path := by
    simp [parse_source, hfs, hjson]
  refine ⟨fun hl hall => ?_, fun hl hobj => ?_, fun hl => ?_⟩
  · obtain ⟨recs, htr, hlen, hmap⟩ :=
      traverse_extract_enumFrom now source_path convs 0 hall
    refine ⟨recs, ?_, hlen, ?_⟩
    · rw [hps]
      simp only [_parse_json_conversations, hl]
      exact htr
    · rw [hmap]
      exact (List.range_eq_range' _).symm
  · obtain ⟨r, hr, hidx⟩ := extract_ok now (.obj fields) source_path 0 hobj
    refine ⟨[r], ?_, rfl, by simp [hidx]⟩
    rw [hps]
    simp only [_parse_json_conversations, hl, hr]
  · rw [hps]
    simp [_parse_json_conversations, hl]

/-- Witness for C9_json_parse_counts: an array of two conversation objects
(one with a well-formed messages list, one without messages), a single
conversation object, and a decode failure, each on concrete hooks. -/
theorem C9_json_parse_counts_witness :
    (∃ recs, parse_source (fun _ => some "[1, 2]")
        (fun _ => .ok (.arr
          [.obj [("messages", .arr [.obj [("role", .str "user"), ("content", .str "hi")]])],
           .obj [("title", .str "T")]]))
        "2025-01-01" "export.json" = .ok recs ∧
      recs.length =
        ([Json.obj [("messages",
            Json.arr [Json.obj [("role", Json.str "user"), ("content", Json.str "hi")]])],
          Json.obj [("title", Json.str "T")]] : List Json).length ∧
      recs.map (fun r => r.metadata.conversation_index) =
        List.range ([Json.obj [("messages",
            Json.arr [Json.obj [("role", Json.str "user"), ("content", Json.str "hi")]])],
          Json.obj [("title", Json.str "T")]] : List Json).length) ∧
    (∃ recs, parse_source (fun _ => some "obj")
        (fun _ => .ok (.obj [("title", .str "T")])) "2025-01-01" "export.json" = .ok recs ∧
      recs.length = 1 ∧
      recs.map (fun r => r.metadata.conversation_index) = [0]) ∧
    parse_source (fun _ => some "not json") (fun _ => .error "Expecting value")
        "2025-01-01" "export.json" = .ok [] :=
  ⟨(C9_json_parse_counts (fun _ => some "[1, 2]")
      (fun _ => .ok (.arr
        [.obj [("messages", .arr [.obj [("role", .str "user"), ("content", .str "hi")]])],
         .obj [("title", .str "T")]]))
      "2025-01-01" "export.json" "[1, 2]"
      [Json.obj [("messages",
          Json.arr [Json.obj [("role", Json.str "user"), ("content", Json.str "hi")]])],
        Json.obj [("title", Json.str "T")]] [] "x" rfl rfl).1 rfl (by decide),
   (C9_json_parse_counts (fun _ => some "obj")
      (fun _ => .ok (.obj [("title", .str "T")]))
      "2025-01-01" "export.json" "obj" [] [("title", Json.str "T")] "x" rfl rfl).2.1 rfl
      (by decide),
   (C9_json_parse_counts (fun _ => some "not json")
      (fun _ => .error "Expecting value")
      "2025-01-01" "export.json" "not json" [] [] "Expecting value" rfl rfl).2.2 rfl⟩

theorem append_ne_empty_left (a b : String) (h : a ≠ "") : a ++ b ≠ "" := by
  intro hc
  apply h
  have hd := congrArg String.data hc
  rw [String.data_append] at hd
  exact String.ext (by simp [(List.append_eq_nil.mp hd).1])

/-- C6: for every source path that does not exist, or whose (lowercased)
extension is outside the supported set, or whose content is empty after
trimming, validate_source returns (false, non-empty reason) without
raising, and ingest on such a path fails before ever invoking parse,
transform or store: its outcome is the same for every parse hook and
every batch-processing hook. -/
theorem C6_validation_short_circuit
    (fs : String → Option String) (jsonLoads : String → Except String Json)
    (source_path : String)
    (hbad : fs source_path = none ∨
      ∃ c, fs source_path = some c ∧
        (pyLower (pathSuffix source_path) ∉ get_supported_formats ∨
         (pyStrip c).length = 0)) :
    ∃ m, validate_source fs jsonLoads source_path = (false, some m) ∧ m ≠ "" ∧
      ∀ (Rec : Type) (parse : String → Except String (List Rec))
        (pb : List Rec → IngestorProgress → Except String (Nat × Nat) × IngestorProgress)
        (tbl : String) (bs : Nat) (vo : Bool) (p0 : IngestorProgress),
        ingest (.ok ()) (validate_source fs jsonLoads) parse pb tbl bs source_path vo p0 =
          (.error ("Source validation failed: " ++ m),
           { p0.add_error ("Source validation failed: " ++ m) with status := .failed }) := by
  rcases hbad with h | ⟨c, hc, hdis⟩
  · refine ⟨"Source path does not exist: " ++ source_path, by simp [validate_source, h],
      append_ne_empty_left _ _ (by decide), ?_⟩
    intro Rec parse pb tbl bs vo p0
    simp [ingest, ingestBody, validate_source, h, pyFormatOpt]
  · by_cases hsuf : pyLower (pathSuffix source_path) ∈ get_supported_formats
    · have hempty : (pyStrip c).length = 0 := by
        rcases hdis with h1 | h1
        · exact absurd hsuf h1
        · exact h1
      refine ⟨"File is empty", by simp [validate_source, hc, hsuf, hempty],
        by decide, ?_⟩
      intro Rec parse pb tbl bs vo p0
      simp [ingest, ingestBody, validate_source, hc, hsuf, hempty, pyFormatOpt]
    · refine ⟨"Unsupported file format: " ++ pathSuffix source_path,
        by simp [validate_source, hc, hsuf], append_ne_empty_left _ _ (by decide), ?_⟩
      intro Rec parse pb tbl bs vo p0
      simp [ingest, ingestBody, validate_source, hc, hsuf, pyFormatOpt]

/-- Witness for C6_validation_short_circuit at a non-existent path. -/
theorem C6_validation_short_circuit_witness :
    ∃ m, validate_source (fun _ => none) (fun _ => .error "x") "missing.json" =
        (false, some m) ∧ m ≠ "" ∧
      ∀ (Rec : Type) (parse : String → Except String (List Rec))
        (pb : List Rec → IngestorProgress → Except String (Nat × Nat) × IngestorProgress)
        (tbl : String) (bs : Nat) (vo : Bool) (p0 : IngestorProgress),
        ingest (.ok ()) (validate_source (fun _ => none) (fun _ => .error "x")) parse pb
            tbl bs "missing.json" vo p0 =
          (.error ("Source validation failed: " ++ m),
           { p0.add_error ("Source validation failed: " ++ m) with status := .failed }) :=
  C6_validation_short_circuit (fun _ => none) (fun _ => .error "x") "missing.json"
    (Or.inl rfl)

/-- C3 amended: the staged temp blob of a record is released only after a
successful store call: on success the temp file is deleted, and a failure
of the deletion itself is swallowed (logged) without raising; when the
store raises, the exception is re-raised and the temp file is NOT deleted
by the store step (it is only removed later by cleanup). -/
theorem C3_store_release
    (insertFn : StoredFields → Except String Unit) (unlinkFails : String → Bool)
    (record : TransformedRecord) (files : List String) (t : String)
    (ht : record.temp_file_path = some t) (hin : t ∈ files) :
    (insertFn (stripTransient record) = .ok () →
      ((unlinkFails t = false →
        _store_pixeltable insertFn unlinkFails record files = (.ok (), files.erase t)) ∧
       (unlinkFails t = true →
        _store_pixeltable insertFn unlinkFails record files = (.ok (), files)))) ∧
    (∀ e, insertFn (stripTransient record) = .error e →
      _store_pixeltable insertFn unlinkFails record files = (.error e, files)) := by
  constructor
  · intro hok
    constructor <;> intro hu <;> simp [_store_pixeltable, hok, ht, hin, hu]
  · intro e he
    simp [_store_pixeltable, he]

/-- C3 counterexample: a concrete record whose store call raises leaves the
staged temp file in place, refuting the claim that the blob is released
after the store call regardless of whether the store succeeds or raises. -/
theorem C3_counterexample :
    _store_pixeltable (fun _ => .error "insert failed") (fun _ => false)
        { pdf_file := "/tmp/takeout_ingestor_docs/claude_conv_1_t.txt"
          document_metadata := "m"
          ingested_at := "now"
          temp_file_path := some "/tmp/takeout_ingestor_docs/claude_conv_1_t.txt" }
        ["/tmp/takeout_ingestor_docs/claude_conv_1_t.txt"] =
      (.error "insert failed", ["/tmp/takeout_ingestor_docs/claude_conv_1_t.txt"]) ∧
    "/tmp/takeout_ingestor_docs/claude_conv_1_t.txt" ∈
      ["/tmp/takeout_ingestor_docs/claude_conv_1_t.txt"] :=
  ⟨rfl, by decide⟩

/-- Witness for C3_store_release at a concrete record: successful store
deletes the blob, and a raising store returns the error with the blob in
place. -/
theorem C3_store_release_witness :
    (_store_pixeltable (fun _ => .ok ()) (fun _ => false)
        { pdf_file := "/tmp/takeout_ingestor_docs/c.txt"
          document_metadata := "m"
          ingested_at := "now"
          temp_file_path := some "/tmp/takeout_ingestor_docs/c.txt" }
        ["/tmp/takeout_ingestor_docs/c.txt"] =
      (.ok (), (["/tmp/takeout_ingestor_docs/c.txt"] : List String).erase
        "/tmp/takeout_ingestor_docs/c.txt")) ∧
    (_store_pixeltable (fun _ => .error "boom") (fun _ => false)
        { pdf_file := "/tmp/takeout_ingestor_docs/c.txt"
          document_metadata := "m"
          ingested_at := "now"
          temp_file_path := some "/tmp/takeout_ingestor_docs/c.txt" }
        ["/tmp/takeout_ingestor_docs/c.txt"] =
      (.error "boom", ["/tmp/takeout_ingestor_docs/c.txt"])) :=
  ⟨((C3_store_release (fun _ => .ok ()) (fun _ => false) _ _
      "/tmp/takeout_ingestor_docs/c.txt" rfl (by decide)).1 rfl).1 rfl,
   (C3_store_release (fun _ => .error "boom") (fun _ => false) _ _
      "/tmp/takeout_ingestor_docs/c.txt" rfl (by decide)).2 "boom" rfl⟩
